import Mathlib

/-
Verification of the iitm-llm-app-developer repository: a shallow embedding
of its task-handling service (round controller, LLM continuation client,
output materializer, repository client, record store) together with
theorems settling the frozen claims about it.

Conventions of the embedding:
 - Python strings are Lean `String`s; `str.strip()` is `pyStrip`,
   `str.lower()` is `pyLower`, substring tests are `strContains`.
 - Machine effects that no claim touches (actual HTTP transport, the real
   filesystem, subprocess invocation, datetime parsing) are abstracted to
   explicit inputs: every remote call's response, every clock read and
   every nondeterministic suffix is a parameter of the model, and the
   handler functions compute the resulting record-store contents, the
   ordered list of observable events, and the HTTP outcome.
 - Fallible Python code (raised exceptions) is modelled with
   `Option`/`Except` results.
-/

namespace IitmApp

/-! Python string primitives used by the source. -/

/-- Characters removed by Python `str.strip()`. -/
def isPySpace (c : Char) : Bool :=
  c = ' ' || c = '\t' || c = '\n' || c = '\r' || c = '\x0B' || c = '\x0C'

/-- Python `str.strip()`: drop leading and trailing whitespace. -/
def pyStrip (s : String) : String :=
  String.mk (((s.toList.dropWhile isPySpace).reverse.dropWhile isPySpace).reverse)

/-- Python `str.lower()` (ASCII case folding, as the source applies it to
ASCII status strings and error messages). -/
def pyLower (s : String) : String := String.mk (s.toList.map Char.toLower)

/-- Does `hay` start with `needle` (character lists)? -/
def charsStartWith : List Char → List Char → Bool
  | _, [] => true
  | [], _ :: _ => false
  | a :: as, b :: bs => a = b && charsStartWith as bs

/-- Does `hay` contain `needle` as a contiguous run (Python `needle in hay`)? -/
def charsContain : List Char → List Char → Bool
  | [], needle => needle.isEmpty
  | a :: t, needle => charsStartWith (a :: t) needle || charsContain t needle

/-- Python `needle in hay` on strings. -/
def strContains (hay needle : String) : Bool :=
  charsContain hay.toList needle.toList

/-- UTF-8 encoding of one Unicode scalar value. -/
def utf8EncodeCodepoint (n : Nat) : List Nat :=
  if n < 0x80 then [n]
  else if n < 0x800 then [0xC0 + n / 64, 0x80 + n % 64]
  else if n < 0x10000 then [0xE0 + n / 4096, 0x80 + n / 64 % 64, 0x80 + n % 64]
  else [0xF0 + n / 262144, 0x80 + n / 4096 % 64, 0x80 + n / 64 % 64, 0x80 + n % 64]

/-- UTF-8 bytes of a string, as naturals (Python `s.encode("utf-8")`). -/
def utf8Bytes (s : String) : List Nat :=
  s.toList.foldr (fun c acc => utf8EncodeCodepoint c.toNat ++ acc) []

/-! Base64, as used by `base64.b64encode` / `base64.b64decode`.
Bytes are naturals below 256. -/

/-- The 64-character base64 alphabet. -/
def b64Alphabet : List Char :=
  "ABCDEFGHIJKLMNOPQRSTUVWXYZabcdefghijklmnopqrstuvwxyz0123456789+/".toList

/-- Character for a six-bit group. -/
def sixBitChar (n : Nat) : Char := b64Alphabet.getD n 'A'

/-- Inverse of `sixBitChar` on the alphabet. -/
def charSixBit (c : Char) : Option Nat := b64Alphabet.findIdx? (fun x => x = c)

/-- Base64 encoding of a byte list, with `=` padding. -/
def b64Encode : List Nat → List Char
  | [] => []
  | [b1] =>
      [sixBitChar (b1 / 4), sixBitChar (b1 % 4 * 16), '=', '=']
  | [b1, b2] =>
      [sixBitChar (b1 / 4), sixBitChar (b1 % 4 * 16 + b2 / 16),
       sixBitChar (b2 % 16 * 4), '=']
  | b1 :: b2 :: b3 :: rest =>
      sixBitChar (b1 / 4) :: sixBitChar (b1 % 4 * 16 + b2 / 16) ::
      sixBitChar (b2 % 16 * 4 + b3 / 64) :: sixBitChar (b3 % 64) ::
      b64Encode rest

/-- Characters `b64decode` keeps (alphabet members and padding); all others
are discarded before decoding, as CPython does with `validate=False`. -/
def b64ValidChar (c : Char) : Bool := (charSixBit c).isSome || c = '='

/-- Decode four-character groups; `none` models `binascii.Error`. -/
def b64DecodeGroups : List Char → Option (List Nat)
  | [] => some []
  | c0 :: c1 :: c2 :: c3 :: rest =>
      match charSixBit c0, charSixBit c1 with
      | some n0, some n1 =>
          if c2 = '=' then
            if c3 = '=' ∧ rest = [] then some [n0 * 4 + n1 / 16] else none
          else
            match charSixBit c2 with
            | some n2 =>
                if c3 = '=' then
                  if rest = [] then
                    some [n0 * 4 + n1 / 16, n1 % 16 * 16 + n2 / 4]
                  else none
                else
                  match charSixBit c3 with
                  | some n3 =>
                      match b64DecodeGroups rest with
                      | some bs =>
                          some ((n0 * 4 + n1 / 16) :: (n1 % 16 * 16 + n2 / 4) ::
                                (n2 % 4 * 64 + n3) :: bs)
                      | none => none
                  | none => none
            | none => none
      | _, _ => none
  | _ => none

/-- Python `base64.b64decode` (default validation). -/
def b64decode (s : String) : Option (List Nat) :=
  b64DecodeGroups (s.toList.filter b64ValidChar)

/-! The LLM completion client: `app/openai_llm_utils.py`. -/

/-- One element of a block's `content` array in a Responses-API reply. -/
structure ContentPiece where
  type : String
  text : String
deriving DecidableEq, Repr

/-- One element of the `output` array: carries a `status` and content. -/
structure OutputBlock where
  status : Option String
  content : List ContentPiece
deriving DecidableEq, Repr

/-- The JSON reply of one `call_response_api` invocation: the response `id`
and the `output` array (`none` when the key is absent). -/
structure ResponseJson where
  rid : Option String
  output : Option (List OutputBlock)
deriving DecidableEq, Repr

/-- Python `a or b` on optional strings: `None` and `""` are falsy. -/
def pyOrStr (a b : Option String) : Option String :=
  match a with
  | some s => if s = "" then b else some s
  | none => b

/-- Text of one output block: concatenation of its `output_text` pieces. -/
def blockText (b : OutputBlock) : String :=
  String.join ((b.content.filter (fun p => p.type = "output_text")).map ContentPiece.text)

/-- `extract_text_and_finish_reason`: response id, joined text chunks, and
the first truthy per-block status. -/
def extract_text_and_finish_reason (r : ResponseJson) :
    Option String × String × Option String :=
  match r.output with
  | none => (r.rid, "", none)
  | some blocks =>
      (r.rid,
       String.join (blocks.map blockText),
       blocks.foldl (fun acc b => pyOrStr acc b.status) none)

/-- One turn of the conversation sent to the completion endpoint. -/
structure Turn where
  role : String
  text : String
deriving DecidableEq, Repr

/-- The conversation `request_llm_and_get_output` builds before its loop. -/
def startConversation (systemPrompt userPrompt : String) : List Turn :=
  [⟨"system", systemPrompt⟩, ⟨"user", userPrompt⟩]

/-- The follow-up turn the source constructs on truncation. The source
stores it in a local `new_conversation` list that is never passed to
`call_response_api`; the theorems below exploit exactly this. -/
def continueTurn : Turn :=
  ⟨"user", "Please continue exactly where you left off."⟩

/-- The observable part of one `call_response_api` request: the
`input` conversation and the optional `previous_response_id` field. -/
structure ApiCall where
  conversation : List Turn
  prevResponseId : Option String
deriving DecidableEq, Repr

/-- The loop's truncation test:
`finish_reason and finish_reason.lower() != "completed"`. -/
def truncatedFinish (f : Option String) : Bool :=
  match f with
  | none => false
  | some s => s ≠ "" && pyLower s ≠ "completed"

/-- The continuation loop of `request_llm_and_get_output`. `fuel` is the
number of loop-guard checks still allowed (`continuation_attempts`
ranges over `0..max`, so the guard admits `max + 1` iterations); the
conversation is passed through unchanged exactly as the source does; the
next unconsumed `ResponseJson` answers each call, and `none` models a
transport exception (no response available for a call that was made). -/
def llmContinuationLoop (conv : List Turn) :
    Nat → Option String → String → List ResponseJson →
    Option (String × List ApiCall)
  | 0, _, acc, _ => some (acc, [])
  | fuel + 1, rid, acc, resps =>
      match resps with
      | [] => none
      | r :: rest =>
          let call : ApiCall := ⟨conv, rid⟩
          let e := extract_text_and_finish_reason r
          let acc2 := acc ++ e.2.1
          if truncatedFinish e.2.2 then
            match llmContinuationLoop conv fuel e.1 acc2 rest with
            | some (t, cs) => some (t, call :: cs)
            | none => none
          else
            some (acc2, [call])

/-- `request_llm_and_get_output`: run the continuation loop with ceiling
`maxCont` (`OPENAI_MAX_CONTINUATIONS`) and return the accumulated text
stripped, together with the requests that were issued. -/
def request_llm_and_get_output (maxCont : Nat) (systemPrompt userPrompt : String)
    (resps : List ResponseJson) : Option (String × List ApiCall) :=
  (llmContinuationLoop (startConversation systemPrompt userPrompt)
      (maxCont + 1) none "" resps).map
    (fun p => (pyStrip p.1, p.2))

/-- Concatenation of the extracted text chunks of a response list. -/
def chunksConcat : List ResponseJson → String
  | [] => ""
  | r :: rs => (extract_text_and_finish_reason r).2.1 ++ chunksConcat rs

/-! The record store: `app/database_utils.py`. One flat record per task
identifier; every column of the `tasks` schema that the handlers touch is a
field. Timestamps are carried as opaque strings; the SQLite trigger that
refreshes `updated_at` is elided (no claim concerns it). -/

/-- One row of the `tasks` table. -/
structure TaskRecord where
  email : Option String := none
  round : Option Int := none
  nonce : Option String := none
  brief : Option String := none
  evaluation_url : Option String := none
  checks : Option String := some "[]"
  attachments : Option String := some "[]"
  llm_output_path : Option String := none
  created_files : Option String := none
  commit_message : Option String := none
  commit_hash : Option String := none
  created_at : Option String := none
  updated_at : Option String := none
  round1_email : Option String := none
  round1_nonce : Option String := none
  round1_brief : Option String := none
  round1_evaluation_url : Option String := none
  round1_checks : Option String := some "[]"
  round1_attachments : Option String := some "[]"
  round1_llm_output_path : Option String := none
  round1_created_files : Option String := none
  round1_commit_message : Option String := none
  round1_commit_hash : Option String := none
  round1_created_at : Option String := none
  round1_updated_at : Option String := none
  repo_name : Option String := none
  repo_clone_url : Option String := none
  base_path : Option String := none
  owner : Option String := none
  repo_local_path : Option String := none
  pages_url : Option String := none
deriving DecidableEq, Repr

/-- The store: rows keyed by `task_id` (the primary key is unique). -/
abbrev Db := List (String × TaskRecord)

/-- `get_task`: point lookup, `None` when the row is absent. -/
def get_task (db : Db) (tid : String) : Option TaskRecord :=
  (db.find? (fun p => p.1 = tid)).map Prod.snd

/-- Update the row of `tid` in place (no-op on other rows). -/
def setRec (db : Db) (tid : String) (g : TaskRecord → TaskRecord) : Db :=
  db.map (fun p => if p.1 = tid then (p.1, g p.2) else p)

/-- `upsert_task` with a concrete field update `g`: merge into the existing
row, or insert a fresh row built from column defaults. -/
def upsertWith (db : Db) (tid : String) (g : TaskRecord → TaskRecord) : Db :=
  if db.any (fun p => p.1 = tid) then setRec db tid g else db ++ [(tid, g {})]

/-- The field copy performed by `archive_task_round_01`'s UPDATE. -/
def archiveCopy (r : TaskRecord) : TaskRecord :=
  { r with
    round1_email := r.email
    round1_nonce := r.nonce
    round1_brief := r.brief
    round1_evaluation_url := r.evaluation_url
    round1_checks := r.checks
    round1_attachments := r.attachments
    round1_llm_output_path := r.llm_output_path
    round1_created_files := r.created_files
    round1_commit_message := r.commit_message
    round1_commit_hash := r.commit_hash
    round1_created_at := r.created_at
    round1_updated_at := r.updated_at }

/-- `archive_task_round_01`: `False` and no change when the row is absent,
otherwise copy the current fields into the `round1_`-prefixed columns. -/
def archive_task_round_01 (db : Db) (tid : String) : Bool × Db :=
  match get_task db tid with
  | none => (false, db)
  | some _ => (true, setRec db tid archiveCopy)

/-! The output materializer: `app/xml_utils.py`. XML wire syntax is elided:
a parsed `<files>` container is the list of its `<file>` children, each
carrying its `path` attribute, optional `encoding` attribute, and raw inner
text. -/

/-- A `<file>` element of the `<files>` container. -/
structure RawFileEntry where
  path : String
  rawText : String
  encoding : Option String
deriving DecidableEq, Repr

/-- The dictionary `files_parse` yields per file. -/
structure FileEntry where
  path : String
  content : String
  encoding : Option String
deriving DecidableEq, Repr

/-- `files_parse`: content is the element's inner text, stripped. -/
def files_parse (raws : List RawFileEntry) : List FileEntry :=
  raws.map (fun r => ⟨r.path, pyStrip r.rawText, r.encoding⟩)

/-- Split a character list on `/` separators. -/
def splitSlash (cs : List Char) : List (List Char) :=
  cs.foldr
    (fun c acc =>
      if c = '/' then [] :: acc
      else match acc with
        | [] => [[c]]
        | g :: gs => (c :: g) :: gs)
    [[]]

/-- Python `Path(p).name`: the final non-empty path component. -/
def pathName (p : String) : String :=
  String.mk (((splitSlash p.toList).filter (fun g => ¬ g.isEmpty)).getLastD [])

/-- Effects of one `create_files_from_response` run: the byte writes in
order, the commit message upserted into the record (if any), and the
returned `created_files` list. -/
structure MatState where
  writes : List (String × List Nat)
  commitMessage : Option String
  created : List String
deriving DecidableEq, Repr

/-- The per-entry loop of `create_files_from_response`. `none` models a
raised decoding error. -/
def materializeEntries : List FileEntry → List String → MatState → Option MatState
  | [], _, st => some st
  | e :: rest, excl, st =>
      let name := pathName e.path
      if name = "LICENSE" then
        materializeEntries rest excl st
      else if name = "commit_message" then
        materializeEntries rest excl { st with commitMessage := some e.content }
      else if excl.contains name then
        materializeEntries rest excl st
      else
        match (if e.encoding = some "base64" then b64decode e.content
               else some (utf8Bytes e.content)) with
        | none => none
        | some bytes =>
            materializeEntries rest excl
              { st with writes := st.writes ++ [(e.path, bytes)],
                        created := st.created ++ [e.path] }

/-- `create_files_from_response` over a parsed container. -/
def create_files_from_response (raws : List RawFileEntry)
    (additionalExcludeFiles : List String) : Option MatState :=
  materializeEntries (files_parse raws) additionalExcludeFiles ⟨[], none, []⟩

/-! The repository client: `app/github_utils.py`. -/

/-- The fields of the create-repository JSON reply the handler reads. -/
structure RepoInfo where
  htmlUrl : String
  ownerLogin : String
deriving DecidableEq, Repr

/-- An HTTP reply from the repository host: status code, body text, and
the parsed JSON fields used on success. -/
structure HttpResponse where
  statusCode : Nat
  text : String
  htmlUrl : String
  ownerLogin : String
deriving DecidableEq, Repr

/-- The module-level `GitHubError` class of `github_utils`: the class the
`except GitHubError` clauses of `task_handler` refer to. -/
def moduleGitHubError : String := "github_utils.GitHubError"

/-- The function-local `GitHubError` class that `create_remote_repository`
defines in its own body and raises; it is a direct `Exception` subclass
unrelated to the module-level class of the same name. -/
def localGitHubError : String := "github_utils.create_remote_repository.<locals>.GitHubError"

/-- A raised Python exception: its class identity and its message. -/
structure PyExc where
  cls : String
  msg : String
deriving DecidableEq, Repr

/-- Python `except GitHubError` with the module-level class in scope:
matches an exception only when it is an instance of that class. Neither
`GitHubError` class subclasses the other, so the test is class
equality. -/
def catchesModuleGitHubError (e : PyExc) : Bool := e.cls = moduleGitHubError

/-- `create_remote_repository`: 201 succeeds; 422 whose body mentions
`name already exists` raises the collision message; anything else raises a
generic failure carrying the status and body. Every raise in this
function uses the function-local `GitHubError` class it defines at its
top, not the module-level one. -/
def create_remote_repository (token : Option String) (resp : HttpResponse) :
    Except PyExc RepoInfo :=
  match token with
  | none => .error ⟨localGitHubError, "Missing GITHUB_TOKEN environment variable."⟩
  | some _ =>
      if resp.statusCode = 201 then
        .ok ⟨resp.htmlUrl, resp.ownerLogin⟩
      else if resp.statusCode = 422 ∧ strContains (pyLower resp.text) "name already exists" then
        .error ⟨localGitHubError, "Repository with this name already exists."⟩
      else
        .error ⟨localGitHubError,
          "Failed to create repository (" ++ toString resp.statusCode ++ "): " ++ resp.text⟩

/-- The local git state `git_commit_and_push` observes: whether
`git add --all` leaves staged changes, and the hash a fresh commit would
get. Filesystem and subprocess mechanics are elided. -/
structure GitPushState where
  stagedAfterAdd : Bool
  headSha : String
deriving DecidableEq, Repr

/-- `git_commit_and_push`: missing token raises; with no staged changes it
returns before committing (Python returns `None`); otherwise it commits,
pushes, and returns the short (7-character) commit hash. -/
def git_commit_and_push (token : Option String) (st : GitPushState) :
    Except String (Option String) :=
  match token with
  | none => .error "Missing GITHUB_TOKEN environment variable for git push."
  | some _ =>
      if st.stagedAfterAdd then .ok (some (st.headSha.take 7))
      else .ok none

/-! The round controller: `app/task_handler.py`. -/

/-- `MAX_REPO_CREATION_ATTEMPTS` in the source. -/
def MAX_REPO_CREATION_ATTEMPTS : Nat := 30

/-- `ROUND_01_TIMEOUT_SECONDS` (and `ROUND_02_TIMEOUT_SECONDS`). -/
def ROUND_TIMEOUT_SECONDS : Int := 600

/-- `ROUND_01_BUFFER_TIME_REQUIRED` (and the round-2 twin). -/
def ROUND_BUFFER_TIME_REQUIRED : Int := 30

/-- `PAGES_BUILD_TIME_ESTIMATE`. -/
def PAGES_BUILD_TIME_ESTIMATE : Int := 40

/-- The observable events of a handler run, in program order. -/
inductive Ev where
  | createAttempt (attempt : Nat) (repoName : String)
  | attachCommit
  | llmCall (iter : Nat)
  | archive
  | pagesWait
  | notify
deriving DecidableEq, Repr

/-- Is this event an LLM invocation? -/
def isLlmEv : Ev → Bool
  | .llmCall _ => true
  | _ => false

/-- Is this event a repository-creation attempt? -/
def isCreateEv : Ev → Bool
  | .createAttempt _ _ => true
  | _ => false

/-- Outcome a handler reports: the returned body, a raised
`HTTPException`, an unhandled Python exception, or fuel exhaustion of the
model (the source's unbounded retry loop still spinning). -/
inductive HandlerResult where
  | ok (msg : String)
  | httpError (code : Nat) (detail : String)
  | pyError (msg : String)
  | outOfFuel
deriving DecidableEq, Repr

/-- What one iteration of the deadline-bounded LLM block does once it is
past the time check: either every step (prompt build, LLM call, file
write, materialization, commit, push) succeeds — carrying the created
file list, the commit message the materializer extracted, and the push
result — or some step raises and the iteration retries. Record writes of
a failed iteration's completed early steps are elided (no claim reads
them). -/
inductive LlmIterOutcome where
  | ok (files : List String) (commitMsg : Option String) (push : Option String)
  | exn (msg : String)

/-- `json.dumps` on a list of strings (escaping elided). -/
def jsonDumpStrList (l : List String) : String :=
  "[" ++ String.intercalate ", " (l.map (fun s => "\"" ++ s ++ "\"")) ++ "]"

/-- The record writes of one successful LLM iteration, in source order:
`llm_output_path`, the materializer's `commit_message` upsert (when a
`commit_message` pseudo-file was present), `created_files`, and
`commit_hash` (which takes the push result verbatim — `None` when the
push was a no-op). -/
def applyLlmSuccess (db : Db) (tid repoPath outFileName : String)
    (files : List String) (commitMsg : Option String) (push : Option String) : Db :=
  let db1 := upsertWith db tid
    (fun r => { r with llm_output_path := some (repoPath ++ "/" ++ outFileName) })
  let db2 := match commitMsg with
    | some m => upsertWith db1 tid (fun r => { r with commit_message := some m })
    | none => db1
  let db3 := upsertWith db2 tid
    (fun r => { r with created_files := some (jsonDumpStrList files) })
  upsertWith db3 tid (fun r => { r with commit_hash := push })

/-- Inputs of the deadline-bounded LLM retry loop: the configured
estimated LLM time (`OPENAI_API_REQUEST_TIMEOUT`), the round timeout and
buffer, the task's creation time, the wall clock observed at each guard
evaluation, and each iteration's outcome. All times are integer seconds. -/
structure LlmLoopEnv where
  llmTime : Int
  createdAt : Int
  iterNow : Nat → Int
  iters : Nat → LlmIterOutcome

/-- The `while True` LLM block shared by both rounds: re-check the time
budget, break (no call) when `llmTime + buffer > time_left`, otherwise
run one iteration; success breaks, an exception retries unconditionally.
`fuel` bounds the model only — the source loop has no attempt bound —
and `none` means the loop was still spinning when fuel ran out. -/
def llmRetryLoop (e : LlmLoopEnv) (tid repoPath outFileName : String) :
    Nat → Nat → Db → Option (List Ev × Db)
  | 0, _, _ => none
  | fuel + 1, i, db =>
      let timeLeft := ROUND_TIMEOUT_SECONDS - (e.iterNow i - e.createdAt)
      if e.llmTime + ROUND_BUFFER_TIME_REQUIRED > timeLeft then
        some ([], db)
      else
        match e.iters i with
        | .ok files msg push =>
            some ([Ev.llmCall i],
                  applyLlmSuccess db tid repoPath outFileName files msg push)
        | .exn _ =>
            match llmRetryLoop e tid repoPath outFileName fuel (i + 1) db with
            | some (evs, db2) => some (Ev.llmCall i :: evs, db2)
            | none => none

/-- Everything `handle_round_01` consumes from its surroundings: the
bearer token, the resolved repository base path, per-attempt repository
suffixes (`uuid4().hex[:8]`) and host responses, the seeding and Pages
step results, the LLM loop inputs, the clock at the pages-wait check, and
whether archival and notification succeed. -/
structure R1Env where
  token : Option String
  basePath : String
  suffixes : Nat → String
  createResponses : Nat → HttpResponse
  setupResult : Except String (String × Option String)
  pagesResult : Except String (Option String)
  llm : LlmLoopEnv
  postNow : Int
  archiveOk : Bool
  notifyOk : Bool
  notifyErr : String

/-- The body of `handle_round_01` from one creation attempt onward.
`fuel` is the number of loop indices left in `range(MAX_REPO_CREATION_ATTEMPTS)`
(`attempt + fuel = MAX_REPO_CREATION_ATTEMPTS` at every call). A raised
creation error first meets the source's `except GitHubError` clause,
which names the module-level class: only an instance of that class enters
the collision-retry / 502 logic, and any other exception — in particular
every error `create_remote_repository` actually raises, which uses its
function-local class — escapes `handle_round_01` uncaught. After a
successful creation the body runs to a return or a raise and never
re-enters the loop. -/
def r1AttemptLoop (env : R1Env) (tid : String) (llmFuel : Nat) :
    Nat → Nat → Db → List Ev × Db × HandlerResult
  | 0, _, db => ([], db, .httpError 500 "Exhausted attempts to create a unique repository.")
  | fuel + 1, attempt, db =>
      let repoName := tid ++ "-" ++ env.suffixes attempt
      let ev0 := Ev.createAttempt attempt repoName
      match create_remote_repository env.token (env.createResponses attempt) with
      | .error exc =>
          if catchesModuleGitHubError exc then
            if strContains (pyLower exc.msg) "already exists"
                && decide (attempt < MAX_REPO_CREATION_ATTEMPTS - 1) then
              let (evs, db2, res) := r1AttemptLoop env tid llmFuel fuel (attempt + 1) db
              (ev0 :: evs, db2, res)
            else
              ([ev0], db, .httpError 502 ("Failed to create repository: " ++ exc.msg))
          else
            ([ev0], db, .pyError (exc.cls ++ ": " ++ exc.msg))
      | .ok info =>
          let db1 := upsertWith db tid (fun r =>
            { r with repo_name := some repoName,
                     repo_clone_url := some info.htmlUrl,
                     base_path := some env.basePath,
                     owner := some info.ownerLogin })
          match env.setupResult with
          | .error msg =>
              ([ev0], db1, .httpError 500 ("Failed to prepare repository: " ++ msg))
          | .ok (repoPath, setupSha) =>
              let db2 := upsertWith db1 tid (fun r =>
                { r with repo_local_path := some repoPath, commit_hash := setupSha })
              match env.pagesResult with
              | .error msg =>
                  ([ev0], db2, .httpError 502 ("Failed to enable GitHub Pages: " ++ msg))
              | .ok pagesUrl =>
                  let db3 := upsertWith db2 tid (fun r => { r with pages_url := pagesUrl })
                  match llmRetryLoop env.llm tid repoPath ".llm_output_round_1.txt"
                      llmFuel 0 db3 with
                  | none => ([ev0], db3, .outOfFuel)
                  | some (llmEvs, db4) =>
                      let db5 := if env.archiveOk
                        then (archive_task_round_01 db4 tid).2 else db4
                      let timeLeft2 := ROUND_TIMEOUT_SECONDS - (env.postNow - env.llm.createdAt)
                      let waitEvs := if PAGES_BUILD_TIME_ESTIMATE + ROUND_BUFFER_TIME_REQUIRED > timeLeft2
                        then [] else [Ev.pagesWait]
                      let evs := ev0 :: llmEvs ++ [Ev.archive] ++ waitEvs ++ [Ev.notify]
                      if env.notifyOk then
                        (evs, db5, .ok ("Repository " ++ repoName ++ " created successfully."))
                      else
                        (evs, db5, .httpError 502
                          ("Failed to notify evaluation service: " ++ env.notifyErr))

/-- `handle_round_01`. -/
def handle_round_01 (env : R1Env) (db : Db) (tid : String) (llmFuel : Nat) :
    List Ev × Db × HandlerResult :=
  r1AttemptLoop env tid llmFuel MAX_REPO_CREATION_ATTEMPTS 0 db

/-- Emptiness of the JSON array stored in the `attachments` column.
General JSON parsing is elided: the column always holds a JSON array, and
the handler only tests `len(json.loads(s) or []) > 0`. `none` models a
`ValueError` from malformed text. -/
def jsonArrayEmpty (s : String) : Option Bool :=
  if pyStrip s = "[]" then some true
  else if (pyStrip s).startsWith "[" && (pyStrip s).endsWith "]" then some false
  else none

/-- Inputs of `handle_round_02`: the result of saving and pushing the
round's attachments (run only when the attachment list is non-empty), the
LLM loop inputs, the pages-wait clock, and the notification outcome. -/
structure R2Env where
  attachPush : Except String (Option String)
  llm : LlmLoopEnv
  postNow : Int
  notifyOk : Bool
  notifyErr : String

/-- The tail of `handle_round_02` after the attachment step: the
deadline-bounded LLM loop writing `.llm_output_round_2.txt`, the
pages-build wait, and the notification. -/
def r2Main (env : R2Env) (db : Db) (tid : String) (llmFuel : Nat)
    (payload : TaskRecord) : List Ev × Db × HandlerResult :=
  match llmRetryLoop env.llm tid (payload.repo_local_path.getD "")
      ".llm_output_round_2.txt" llmFuel 0 db with
  | none => ([], db, .outOfFuel)
  | some (llmEvs, db2) =>
      let timeLeft2 := ROUND_TIMEOUT_SECONDS - (env.postNow - env.llm.createdAt)
      let waitEvs := if PAGES_BUILD_TIME_ESTIMATE + ROUND_BUFFER_TIME_REQUIRED > timeLeft2
        then [] else [Ev.pagesWait]
      let evs := llmEvs ++ waitEvs ++ [Ev.notify]
      if env.notifyOk then
        (evs, db2, .ok ("Repository " ++ payload.repo_name.getD "" ++
          " updated successfully."))
      else
        (evs, db2, .httpError 502
          ("Failed to notify evaluation service: " ++ env.notifyErr))

/-- `handle_round_02`: load the round-1 repository location from the
record, push any new attachments (committed only when the stored
attachment list is non-empty), then run `r2Main`. It never archives. -/
def handle_round_02 (env : R2Env) (db : Db) (tid : String) (llmFuel : Nat) :
    List Ev × Db × HandlerResult :=
  match get_task db tid with
  | none => ([], db, .pyError "AttributeError: NoneType has no attribute get")
  | some payload =>
      match payload.attachments with
      | none => ([], db, .pyError "TypeError: the JSON object must be str")
      | some attStr =>
          match jsonArrayEmpty attStr with
          | none => ([], db, .httpError 500 "Failed to add attachments for round 2: invalid JSON")
          | some isEmpty =>
              if isEmpty then
                r2Main env db tid llmFuel payload
              else
                match env.attachPush with
                | .error msg =>
                    ([], db, .httpError 500
                      ("Failed to add attachments for round 2: " ++ msg))
                | .ok sha =>
                    let db1 := upsertWith db tid (fun r => { r with commit_hash := sha })
                    let rest := r2Main env db1 tid llmFuel payload
                    (Ev.attachCommit :: rest.1, rest.2)

/-- Python string formatting of the stored round value. -/
def pyShowRound : Option Int → String
  | none => "None"
  | some i => toString i

/-- Is this event the round-1 archival step? -/
def isArchiveEv : Ev → Bool
  | .archive => true
  | _ => false

/-- Events allowed after the archival step: anything that is neither an
LLM call nor a second archival. -/
def cleanTail (evs : List Ev) : Bool :=
  evs.all (fun e => !isLlmEv e && !isArchiveEv e)

/-- Scan a trace for the first archival event and check that everything
after it is neither an LLM call nor another archival; a trace with no
archival passes vacuously. -/
def archiveTailOk : List Ev → Bool
  | [] => true
  | .archive :: rest => cleanTail rest
  | _ :: rest => archiveTailOk rest

/-- `handle_llm_task`: read the record and dispatch on its stored `round`
value; a missing record leaves `payload_round` as `None`, which falls
into the same unsupported-round rejection. -/
def handle_llm_task (e1 : R1Env) (e2 : R2Env) (db : Db) (tid : String)
    (llmFuel : Nat) : List Ev × Db × HandlerResult :=
  match get_task db tid with
  | none => ([], db, .httpError 400 ("Unsupported round index: " ++ pyShowRound none))
  | some payload =>
      match payload.round with
      | some 1 => handle_round_01 e1 db tid llmFuel
      | some 2 => handle_round_02 e2 db tid llmFuel
      | r => ([], db, .httpError 400 ("Unsupported round index: " ++ pyShowRound r))

/-! Concrete fixtures used to instantiate the theorems below on closed
inputs. -/

/-- A Responses-API reply with one block holding one text piece. -/
def mkResp (rid st txt : String) : ResponseJson :=
  ⟨some rid, some [⟨some st, [⟨"output_text", txt⟩]⟩]⟩

/-- A successful create-repository reply. -/
def sampleOkResponse : HttpResponse :=
  ⟨201, "", "https://github.com/octo/task-001-abc", "octo"⟩

/-- A name-collision create-repository reply. -/
def sampleCollResponse : HttpResponse :=
  ⟨422, "Validation Failed: name already exists on this account", "", ""⟩

/-- A non-collision create-repository failure. -/
def sampleBadResponse : HttpResponse :=
  ⟨500, "internal server error", "", ""⟩

/-- An LLM-loop input whose first deadline check already fails. -/
def sampleLlmSkip : LlmLoopEnv where
  llmTime := 180
  createdAt := 0
  iterNow := fun _ => 500
  iters := fun _ => .exn "boom"

/-- An LLM-loop input whose first iteration succeeds well inside the
budget. -/
def sampleLlmGo : LlmLoopEnv where
  llmTime := 180
  createdAt := 0
  iterNow := fun _ => 10
  iters := fun _ => .ok ["index.html"] (some "add site") (some "abc1234")

/-- A fully successful round-1 environment. -/
def sampleR1Env : R1Env where
  token := some "tok"
  basePath := "/repos"
  suffixes := fun n => String.mk (List.replicate (n + 1) 'a')
  createResponses := fun _ => sampleOkResponse
  setupResult := .ok ("/repos/task-001-a", some "1111111")
  pagesResult := .ok (some "https://octo.github.io/task-001-a/")
  llm := sampleLlmGo
  postNow := 100
  archiveOk := true
  notifyOk := true
  notifyErr := ""

/-- A round-1 environment in which every creation attempt collides. -/
def sampleCollR1Env : R1Env :=
  { sampleR1Env with createResponses := fun _ => sampleCollResponse }

/-- A round-1 environment whose deadline check forces the LLM skip. -/
def sampleSkipR1Env : R1Env :=
  { sampleR1Env with llm := sampleLlmSkip }

/-- A fully successful round-2 environment with the LLM skip active. -/
def sampleR2Env : R2Env where
  attachPush := .ok none
  llm := sampleLlmSkip
  postNow := 580
  notifyOk := true
  notifyErr := ""

/-- A round-1 record as intake creates it. -/
def sampleRec : TaskRecord :=
  { email := some "student@example.com"
    round := some 1
    nonce := some "n1"
    brief := some "Build something"
    evaluation_url := some "https://example.com/eval"
    created_at := some "2026-01-01 00:00:00"
    updated_at := some "2026-01-01 00:00:00" }

/-- A store holding only the round-1 record. -/
def sampleDb1 : Db := [("task-001", sampleRec)]

/-- A post-round-1 record ready for round 2 with no new attachments. -/
def sampleRec2 : TaskRecord :=
  { sampleRec with
    round := some 2
    attachments := some "[]"
    repo_name := some "task-001-a"
    repo_local_path := some "/repos/task-001-a"
    owner := some "octo"
    commit_hash := some "abc1234" }

/-- A store holding only the round-2 record. -/
def sampleDb2 : Db := [("task-001", sampleRec2)]

/-- A store whose record carries the last pushed commit hash. -/
def sampleDbSha : Db := [("task-001", { sampleRec with commit_hash := some "abc1234" })]

/-- A store whose record carries an unsupported round value. -/
def sampleDb7 : Db := [("task-001", { sampleRec with round := some 7 })]

/-! ### Helper lemmas -/

/-- Unfolding one truncated iteration of the continuation loop. -/
theorem llmLoop_step_trunc (conv : List Turn) (fuel : Nat) (rid : Option String)
    (acc : String) (r : ResponseJson) (rest : List ResponseJson)
    (h : truncatedFinish (extract_text_and_finish_reason r).2.2 = true) :
    llmContinuationLoop conv (fuel + 1) rid acc (r :: rest) =
      (llmContinuationLoop conv fuel (extract_text_and_finish_reason r).1
          (acc ++ (extract_text_and_finish_reason r).2.1) rest).map
        (fun p => (p.1, (⟨conv, rid⟩ : ApiCall) :: p.2)) := by
  simp only [llmContinuationLoop, h, if_true]
  cases llmContinuationLoop conv fuel (extract_text_and_finish_reason r).1
      (acc ++ (extract_text_and_finish_reason r).2.1) rest with
  | none => rfl
  | some p => rfl

/-- Unfolding the final (non-truncated) iteration of the loop. -/
theorem llmLoop_step_done (conv : List Turn) (fuel : Nat) (rid : Option String)
    (acc : String) (r : ResponseJson) (rest : List ResponseJson)
    (h : truncatedFinish (extract_text_and_finish_reason r).2.2 = false) :
    llmContinuationLoop conv (fuel + 1) rid acc (r :: rest) =
      some (acc ++ (extract_text_and_finish_reason r).2.1, [⟨conv, rid⟩]) := by
  simp [llmContinuationLoop, h]

/-- Running the loop against a supply of truncated responses at least as
long as the fuel consumes exactly `fuel` responses and accumulates their
chunks. -/
theorem llmLoop_all_truncated (conv : List Turn) (fuel : Nat) :
    ∀ (resps : List ResponseJson) (rid : Option String) (acc : String),
      fuel ≤ resps.length →
      (∀ r ∈ resps, truncatedFinish (extract_text_and_finish_reason r).2.2 = true) →
      ∃ calls, llmContinuationLoop conv fuel rid acc resps =
          some (acc ++ chunksConcat (resps.take fuel), calls) ∧
        calls.length = fuel := by
  induction fuel with
  | zero =>
      intro resps rid acc _ _
      exact ⟨[], by simp [llmContinuationLoop, chunksConcat, String.append_empty], rfl⟩
  | succ fuel ih =>
      intro resps rid acc hlen htr
      match resps with
      | [] => simp at hlen
      | r :: rest =>
          have hr := htr r (by simp)
          obtain ⟨calls, hloop, hclen⟩ := ih rest (extract_text_and_finish_reason r).1
            (acc ++ (extract_text_and_finish_reason r).2.1)
            (by simpa using hlen) (fun x hx => htr x (by simp [hx]))
          refine ⟨⟨conv, rid⟩ :: calls, ?_, by simp [hclen]⟩
          rw [llmLoop_step_trunc conv fuel rid acc r rest hr, hloop]
          simp [chunksConcat, String.append_assoc]

/-- Every event the LLM retry loop emits is an LLM call. -/
theorem llmRetryLoop_events (e : LlmLoopEnv) (tid repoPath fname : String) :
    ∀ (fuel i : Nat) (db : Db) (evs : List Ev) (db2 : Db),
      llmRetryLoop e tid repoPath fname fuel i db = some (evs, db2) →
      ∀ ev ∈ evs, isLlmEv ev = true := by
  intro fuel
  induction fuel with
  | zero => intro i db evs db2 h; simp [llmRetryLoop] at h
  | succ fuel ih =>
      intro i db evs db2 h
      simp only [llmRetryLoop] at h
      split at h
      · simp only [Option.some.injEq, Prod.mk.injEq] at h
        obtain ⟨h1, _⟩ := h
        subst h1
        intro ev hev; simp at hev
      · split at h
        · simp only [Option.some.injEq, Prod.mk.injEq] at h
          obtain ⟨h1, _⟩ := h
          subst h1
          intro ev hev; simp at hev; subst hev; rfl
        · cases hrec : llmRetryLoop e tid repoPath fname fuel (i + 1) db with
          | none => rw [hrec] at h; simp at h
          | some p =>
              obtain ⟨evs1, db1⟩ := p
              rw [hrec] at h
              simp only [Option.some.injEq, Prod.mk.injEq] at h
              obtain ⟨h1, _⟩ := h
              subst h1
              intro ev hev
              rcases List.mem_cons.mp hev with rfl | hmem
              · rfl
              · exact ih (i + 1) db evs1 db1 hrec ev hmem

/-- LLM-loop events are never archival events. -/
theorem llmRetryLoop_no_archive (e : LlmLoopEnv) (tid repoPath fname : String)
    (fuel i : Nat) (db : Db) (evs : List Ev) (db2 : Db)
    (h : llmRetryLoop e tid repoPath fname fuel i db = some (evs, db2)) :
    ∀ ev ∈ evs, ev ≠ Ev.archive := by
  intro ev hev
  have := llmRetryLoop_events e tid repoPath fname fuel i db evs db2 h ev hev
  cases ev <;> simp_all [isLlmEv]

/-- Every error `create_remote_repository` raises carries its
function-local exception class, which the handler's `except GitHubError`
(the module-level class) does not match. -/
theorem create_error_local_class (token : Option String) (resp : HttpResponse)
    (exc : PyExc)
    (h : create_remote_repository token resp = .error exc) :
    exc.cls = localGitHubError ∧ catchesModuleGitHubError exc = false := by
  suffices hcls : exc.cls = localGitHubError by
    refine ⟨hcls, ?_⟩
    simp [catchesModuleGitHubError, hcls, localGitHubError, moduleGitHubError]
  unfold create_remote_repository at h
  split at h
  · cases h; rfl
  · split at h
    · simp at h
    · split at h <;> · cases h; rfl

/-- Unfolding one creation-failure step of the loop: with the raised
error not matching the except clause's class, the attempt loop ends at
once in the uncaught exception. -/
theorem r1Loop_step_uncaught (env : R1Env) (tid : String) (lf fuel attempt : Nat)
    (db : Db) (exc : PyExc)
    (hcreate : create_remote_repository env.token (env.createResponses attempt) =
      .error exc)
    (hcls : catchesModuleGitHubError exc = false) :
    r1AttemptLoop env tid lf (fuel + 1) attempt db =
      ([Ev.createAttempt attempt (tid ++ "-" ++ env.suffixes attempt)], db,
       .pyError (exc.cls ++ ": " ++ exc.msg)) := by
  simp only [r1AttemptLoop, hcreate]
  rw [if_neg (by simp [hcls])]

/-! ### Claim C1 -/

/-- C1: the claim's collision-retry policy never executes on this
program. `create_remote_repository` defines and raises a function-local
`GitHubError` class, while `handle_round_01`'s `except GitHubError`
names the module-level class, which that exception is not an instance
of: (i) every error the creation call raises carries the local class and
fails the except clause's instance test; (ii) consequently any creation
failure — name collision included — escapes `handle_round_01` as an
uncaught exception after exactly one creation attempt, with the record
store untouched: no retry with a fresh suffix, no ceiling count, and no
502 ever happens; (iii) concretely, a 422 name-collision reply on the
first attempt produces the uncaught collision exception, not a retry.
The retry/ceiling branches the claim describes are dead code guarded by
the instance test. -/
theorem c1_collision_never_retried :
    (∀ (token : Option String) (resp : HttpResponse) (exc : PyExc),
        create_remote_repository token resp = .error exc →
        exc.cls = localGitHubError ∧ catchesModuleGitHubError exc = false)
    ∧
    (∀ (env : R1Env) (tid : String) (lf : Nat) (db : Db) (exc : PyExc),
        create_remote_repository env.token (env.createResponses 0) = .error exc →
        handle_round_01 env db tid lf =
          ([Ev.createAttempt 0 (tid ++ "-" ++ env.suffixes 0)], db,
           .pyError (exc.cls ++ ": " ++ exc.msg)))
    ∧
    (handle_round_01 sampleCollR1Env sampleDb1 "task-001" 3 =
      ([Ev.createAttempt 0 ("task-001" ++ "-" ++ sampleCollR1Env.suffixes 0)],
       sampleDb1,
       .pyError (localGitHubError ++ ": Repository with this name already exists."))) := by
  have huncaught : ∀ (env : R1Env) (tid : String) (lf : Nat) (db : Db) (exc : PyExc),
      create_remote_repository env.token (env.createResponses 0) = .error exc →
      handle_round_01 env db tid lf =
        ([Ev.createAttempt 0 (tid ++ "-" ++ env.suffixes 0)], db,
         .pyError (exc.cls ++ ": " ++ exc.msg)) := by
    intro env tid lf db exc hcreate
    unfold handle_round_01
    rw [show MAX_REPO_CREATION_ATTEMPTS = 29 + 1 from rfl]
    exact r1Loop_step_uncaught env tid lf 29 0 db exc hcreate
      (create_error_local_class env.token (env.createResponses 0) exc hcreate).2
  refine ⟨create_error_local_class, huncaught, ?_⟩
  have h := huncaught sampleCollR1Env "task-001" 3 sampleDb1
    ⟨localGitHubError, "Repository with this name already exists."⟩ rfl
  simpa using h

/-- C1 witness: the collision response on the first attempt through the
never-retried theorem. -/
theorem c1_witness :
    create_remote_repository sampleCollR1Env.token (sampleCollR1Env.createResponses 0) =
      .error ⟨localGitHubError, "Repository with this name already exists."⟩ ∧
    handle_round_01 sampleCollR1Env sampleDb1 "task-001" 3 =
      ([Ev.createAttempt 0 ("task-001" ++ "-" ++ sampleCollR1Env.suffixes 0)],
       sampleDb1,
       .pyError (localGitHubError ++ ": " ++ "Repository with this name already exists.")) :=
  ⟨rfl,
   c1_collision_never_retried.2.1 sampleCollR1Env "task-001" 3 sampleDb1
     ⟨localGitHubError, "Repository with this name already exists."⟩ rfl⟩

/-! ### Claim C3 -/

/-- C3: the claim says that after a response whose completion status is
not "completed", the next request both appends the "continue exactly
where you left off" user turn and references the prior response via the
previous-response-id field. On the code this is false: the follow-up turn
is built into the unused local `new_conversation`, so the next request is
sent with the original conversation unchanged (while the
previous-response-id is indeed set). At the concrete input below — one
"incomplete" response followed by a "completed" one — the second issued
request carries the initial system/user conversation, which does not
contain the follow-up turn. -/
theorem c3_continuation_request_lacks_follow_up_turn :
    request_llm_and_get_output 5 "SYS" "USR"
        [mkResp "resp-1" "incomplete" "part1", mkResp "resp-2" "completed" "part2"] =
      some ("part1part2",
        [⟨startConversation "SYS" "USR", none⟩,
         ⟨startConversation "SYS" "USR", some "resp-1"⟩]) ∧
    continueTurn ∉ startConversation "SYS" "USR" := by
  exact ⟨by decide, by decide⟩

/-! ### Claim C4 -/

/-- C4 counterexample: with chunks `"a\n"`, `"b"`, `"c\n"` under statuses
incomplete/incomplete/completed and ceiling 2, the client returns
`"a\nbc"`, which differs from the concatenation `"a\nbc\n"` of the three
chunks — the source strips the accumulated text before returning it. -/
theorem c4_counterexample :
    (request_llm_and_get_output 2 "SYS" "USR"
        [mkResp "r1" "incomplete" "a\n", mkResp "r2" "incomplete" "b",
         mkResp "r3" "completed" "c\n"]).map Prod.fst = some "a\nbc" ∧
    ("a\nbc" : String) ≠ ("a\n" ++ "b") ++ "c\n" := by
  exact ⟨by decide, by decide⟩

/-- C4 (amended): given responses with statuses
[truncated, truncated, completed] and a continuation ceiling of at least
two, the client returns the concatenation of the three chunks with
leading and trailing whitespace stripped (Python `str.strip()`), and
exactly three requests are issued — the initial one plus two continuation
calls, each referencing the prior response's identifier. -/
theorem c4_three_chunk_reassembly (m : Nat) (systemPrompt userPrompt : String)
    (r1 r2 r3 : ResponseJson) (id1 id2 id3 : Option String)
    (c1 c2 c3 : String) (s1 s2 s3 : Option String)
    (h1 : extract_text_and_finish_reason r1 = (id1, c1, s1))
    (h2 : extract_text_and_finish_reason r2 = (id2, c2, s2))
    (h3 : extract_text_and_finish_reason r3 = (id3, c3, s3))
    (t1 : truncatedFinish s1 = true)
    (t2 : truncatedFinish s2 = true)
    (t3 : truncatedFinish s3 = false) :
    request_llm_and_get_output (m + 2) systemPrompt userPrompt [r1, r2, r3] =
      some (pyStrip ((c1 ++ c2) ++ c3),
        [⟨startConversation systemPrompt userPrompt, none⟩,
         ⟨startConversation systemPrompt userPrompt, id1⟩,
         ⟨startConversation systemPrompt userPrompt, id2⟩]) := by
  unfold request_llm_and_get_output
  rw [show m + 2 + 1 = m + 1 + 1 + 1 from rfl,
      llmLoop_step_trunc _ _ _ _ _ _ (by rw [h1]; exact t1),
      show m + 1 + 1 = m + 1 + 1 from rfl,
      llmLoop_step_trunc _ _ _ _ _ _ (by rw [h2]; exact t2),
      llmLoop_step_done _ _ _ _ _ _ (by rw [h3]; exact t3)]
  simp [h1, h2, h3, String.empty_append]

/-! ### Claim C8 -/

/-- C8: for any supply of consecutive truncated responses longer than the
continuation ceiling, the client terminates with `some` result (no
exception), issues exactly `ceiling + 1` requests, and returns the
accumulated partial text of those requests (stripped, as the source
does). -/
theorem c8_ceiling_returns_partial (maxCont : Nat) (systemPrompt userPrompt : String)
    (resps : List ResponseJson)
    (hlen : maxCont + 1 ≤ resps.length)
    (htr : ∀ r ∈ resps, truncatedFinish (extract_text_and_finish_reason r).2.2 = true) :
    ∃ calls,
      request_llm_and_get_output maxCont systemPrompt userPrompt resps =
        some (pyStrip (chunksConcat (resps.take (maxCont + 1))), calls) ∧
      calls.length = maxCont + 1 := by
  obtain ⟨calls, hloop, hl⟩ := llmLoop_all_truncated
    (startConversation systemPrompt userPrompt) (maxCont + 1) resps none "" hlen htr
  exact ⟨calls, by simp [request_llm_and_get_output, hloop, String.empty_append], hl⟩

/-- C8 witness: three truncated responses against a ceiling of one. -/
theorem c8_witness :
    (1 + 1 ≤ ([mkResp "r1" "stop" "a", mkResp "r2" "stop" "b",
               mkResp "r3" "stop" "c"] : List ResponseJson).length) ∧
    (∃ calls,
      request_llm_and_get_output 1 "S" "U"
          [mkResp "r1" "stop" "a", mkResp "r2" "stop" "b", mkResp "r3" "stop" "c"] =
        some (pyStrip (chunksConcat (([mkResp "r1" "stop" "a", mkResp "r2" "stop" "b",
               mkResp "r3" "stop" "c"] : List ResponseJson).take (1 + 1))), calls) ∧
      calls.length = 1 + 1) :=
  ⟨by decide,
   c8_ceiling_returns_partial 1 "S" "U"
     [mkResp "r1" "stop" "a", mkResp "r2" "stop" "b", mkResp "r3" "stop" "c"]
     (by decide) (by decide)⟩

/-- C4 witness: a concrete truncated/truncated/completed run through the
amended reassembly theorem. -/
theorem c4_witness :
    (extract_text_and_finish_reason (mkResp "r1" "incomplete" "one ") =
      (some "r1", "one ", some "incomplete")) ∧
    truncatedFinish (some "incomplete") = true ∧
    truncatedFinish (some "completed") = false ∧
    request_llm_and_get_output (0 + 2) "S" "U"
        [mkResp "r1" "incomplete" "one ", mkResp "r2" "incomplete" "two ",
         mkResp "r3" "completed" "three"] =
      some (pyStrip (("one " ++ "two ") ++ "three"),
        [⟨startConversation "S" "U", none⟩,
         ⟨startConversation "S" "U", some "r1"⟩,
         ⟨startConversation "S" "U", some "r2"⟩]) :=
  ⟨by decide, by decide, by decide,
   c4_three_chunk_reassembly 0 "S" "U" _ _ _ (some "r1") (some "r2") (some "r3")
     "one " "two " "three" (some "incomplete") (some "incomplete") (some "completed")
     (by decide) (by decide) (by decide) (by decide) (by decide) (by decide)⟩

/-! ### Claim C2 -/

/-- C2 counterexample: at the concrete empty store, dispatching an absent
task identifier fails with HTTP 400 and detail
"Unsupported round index: None" — the missing record falls into the
unsupported-round rejection, not a 404 NotFound (and nothing is written:
the returned store is still empty). -/
theorem c2_counterexample :
    handle_llm_task sampleR1Env sampleR2Env [] "task-001" 1 =
      ([], [], .httpError 400 "Unsupported round index: None") ∧
    (400 : Nat) ≠ 404 :=
  ⟨rfl, by decide⟩

/-- C2 (amended): for every task identifier whose record is absent from
the store, dispatch fails with the 400 unsupported-round error (detail
"Unsupported round index: None" — the code conflates the missing record
with an unsupported round rather than raising a 404 NotFound), emits no
events, and returns the store unchanged: no record is implicitly
created. -/
theorem c2_missing_task_dispatch (e1 : R1Env) (e2 : R2Env) (db : Db) (tid : String)
    (lf : Nat) (h : get_task db tid = none) :
    handle_llm_task e1 e2 db tid lf =
      ([], db, .httpError 400 "Unsupported round index: None") := by
  unfold handle_llm_task
  rw [h]
  rfl

/-- C2 witness: the empty store through the amended dispatch theorem. -/
theorem c2_witness :
    get_task [] "task-001" = none ∧
    handle_llm_task sampleR1Env sampleR2Env [] "task-001" 1 =
      ([], [], .httpError 400 "Unsupported round index: None") :=
  ⟨rfl, c2_missing_task_dispatch sampleR1Env sampleR2Env [] "task-001" 1 rfl⟩

/-! ### Claim C10 -/

/-- C10: for every existing task record whose stored round value is
neither 1 nor 2, dispatch fails with the 400 unsupported-round error
naming that value, emits no events, and returns the store exactly as it
was — the record is untouched. -/
theorem c10_unsupported_round (e1 : R1Env) (e2 : R2Env) (db : Db) (tid : String)
    (lf : Nat) (rec : TaskRecord) (r : Int)
    (h : get_task db tid = some rec) (hr : rec.round = some r)
    (h1 : r ≠ 1) (h2 : r ≠ 2) :
    handle_llm_task e1 e2 db tid lf =
      ([], db, .httpError 400 ("Unsupported round index: " ++ toString r)) := by
  unfold handle_llm_task
  simp only [h]
  rw [hr]
  split <;> simp_all [pyShowRound]

/-- Lookup of the head of a non-empty store. -/
theorem get_task_cons (p : String × TaskRecord) (rest : Db) (tid : String) :
    get_task (p :: rest) tid = if p.1 = tid then some p.2 else get_task rest tid := by
  by_cases hp : p.1 = tid <;> simp [get_task, List.find?_cons, hp]

/-- Lookup through an in-place row update. -/
theorem get_task_setRec (db : Db) (tid : String) (g : TaskRecord → TaskRecord) :
    get_task (setRec db tid g) tid = (get_task db tid).map g := by
  induction db with
  | nil => rfl
  | cons p rest ih =>
      by_cases hp : p.1 = tid
      · rw [show setRec (p :: rest) tid g = (p.1, g p.2) :: setRec rest tid g from
              by simp [setRec, hp]]
        rw [get_task_cons, get_task_cons, if_pos hp, if_pos hp]
        rfl
      · rw [show setRec (p :: rest) tid g = p :: setRec rest tid g from
              by simp [setRec, hp]]
        rw [get_task_cons, get_task_cons, if_neg hp, if_neg hp, ih]

/-- A present row makes `upsertWith` an in-place update of that row. -/
theorem get_task_upsertWith (db : Db) (tid : String) (g : TaskRecord → TaskRecord)
    (rec : TaskRecord) (h : get_task db tid = some rec) :
    get_task (upsertWith db tid g) tid = some (g rec) := by
  have hany : db.any (fun q => q.1 = tid) = true := by
    induction db with
    | nil => simp [get_task] at h
    | cons p rest ih =>
        rw [get_task_cons] at h
        by_cases hp : p.1 = tid
        · simp [hp]
        · rw [if_neg hp] at h
          simp [ih h]
  unfold upsertWith
  rw [if_pos hany, get_task_setRec, h]
  rfl

/-- An archived row keeps the store's shape and carries the copy. -/
theorem archive_lookup (db : Db) (tid : String) (rec : TaskRecord)
    (h : get_task db tid = some rec) :
    archive_task_round_01 db tid = (true, setRec db tid archiveCopy) ∧
    get_task (archive_task_round_01 db tid).2 tid = some (archiveCopy rec) := by
  unfold archive_task_round_01
  rw [h]
  exact ⟨rfl, by rw [get_task_setRec, h]; rfl⟩

/-- `archiveTailOk` ignores a non-archive prefix. -/
theorem archiveTailOk_skip (xs ys : List Ev) (h : ∀ e ∈ xs, e ≠ Ev.archive) :
    archiveTailOk (xs ++ ys) = archiveTailOk ys := by
  induction xs with
  | nil => rfl
  | cons a t ih =>
      have ha := h a (by simp)
      have ht : ∀ e ∈ t, e ≠ Ev.archive := fun e he => h e (by simp [he])
      cases a <;> simp_all [archiveTailOk]

/-- A trace with no archival event passes `archiveTailOk` vacuously. -/
theorem archiveTailOk_none (xs : List Ev) (h : ∀ e ∈ xs, e ≠ Ev.archive) :
    archiveTailOk xs = true := by
  have := archiveTailOk_skip xs [] h
  simpa using this

/-- Every round-1 run satisfies the archival-tail discipline: whatever
path the run takes, at most one archival happens, and nothing after it is
an LLM call or a second archival. -/
theorem r1Loop_archiveTail (env : R1Env) (tid : String) (lf : Nat) :
    ∀ (fuel attempt : Nat) (db : Db),
      archiveTailOk (r1AttemptLoop env tid lf fuel attempt db).1 = true := by
  intro fuel
  induction fuel with
  | zero => intro attempt db; rfl
  | succ fuel ih =>
      intro attempt db
      simp only [r1AttemptLoop]
      split
      · split
        · split
          · simpa [archiveTailOk] using ih (attempt + 1) db
          · rfl
        · rfl
      · split
        · rfl
        · split
          · rfl
          · split
            · rfl
            · rename_i llmEvs db4 heq
              have hno := llmRetryLoop_no_archive _ _ _ _ _ _ _ _ _ heq
              split <;>
                · show archiveTailOk (Ev.createAttempt _ _ ::
                    (llmEvs ++ [Ev.archive] ++ _ ++ [Ev.notify])) = true
                  simp only [archiveTailOk, List.append_assoc]
                  rw [archiveTailOk_skip llmEvs _ hno]
                  split <;> rfl

/-- The round-2 tail never emits an archival event. -/
theorem r2Main_no_archive (env : R2Env) (db : Db) (tid : String) (lf : Nat)
    (payload : TaskRecord) :
    ∀ ev ∈ (r2Main env db tid lf payload).1, isArchiveEv ev = false := by
  intro ev hev
  simp only [r2Main] at hev
  split at hev
  · simp at hev
  · rename_i llmEvs db2 heq
    split at hev <;>
    · simp only [List.mem_append, List.mem_singleton] at hev
      rcases hev with (hev | hev) | rfl
      · have := llmRetryLoop_events _ _ _ _ _ _ _ _ _ heq ev hev
        cases ev <;> simp_all [isLlmEv, isArchiveEv]
      · split at hev <;> simp_all [isArchiveEv]
      · rfl

/-- A round-2 run never emits an archival event. -/
theorem r2_no_archive (env : R2Env) (db : Db) (tid : String) (lf : Nat) :
    (handle_round_02 env db tid lf).1.countP isArchiveEv = 0 := by
  rw [List.countP_eq_zero]
  intro ev hev
  simp only [handle_round_02] at hev
  split at hev
  · simp at hev
  · split at hev
    · simp at hev
    · split at hev
      · simp at hev
      · split at hev
        · exact by simpa using r2Main_no_archive _ _ _ _ _ ev hev
        · split at hev
          · simp at hev
          · simp only [List.mem_cons] at hev
            rcases hev with rfl | hev
            · simp [isArchiveEv]
            · exact by simpa using r2Main_no_archive _ _ _ _ _ ev hev

/-! ### Claim C9 -/

/-- C9: (i) archival of a present record succeeds and copies every
current field into its round1_-prefixed twin, all twelve of them, leaving
the copy visible in the store; (ii) every round-1 run — success, failure
or deadline skip — satisfies the archival-tail discipline: the archival
event happens at most once, only after every LLM call of the run; and
(iii) a round-2 run performs no archival at all. -/
theorem c9_archival_once :
    (∀ (db : Db) (tid : String) (rec : TaskRecord),
        get_task db tid = some rec →
        (archive_task_round_01 db tid).1 = true ∧
        get_task (archive_task_round_01 db tid).2 tid = some (archiveCopy rec) ∧
        (archiveCopy rec).round1_email = rec.email ∧
        (archiveCopy rec).round1_nonce = rec.nonce ∧
        (archiveCopy rec).round1_brief = rec.brief ∧
        (archiveCopy rec).round1_evaluation_url = rec.evaluation_url ∧
        (archiveCopy rec).round1_checks = rec.checks ∧
        (archiveCopy rec).round1_attachments = rec.attachments ∧
        (archiveCopy rec).round1_llm_output_path = rec.llm_output_path ∧
        (archiveCopy rec).round1_created_files = rec.created_files ∧
        (archiveCopy rec).round1_commit_message = rec.commit_message ∧
        (archiveCopy rec).round1_commit_hash = rec.commit_hash ∧
        (archiveCopy rec).round1_created_at = rec.created_at ∧
        (archiveCopy rec).round1_updated_at = rec.updated_at)
    ∧
    (∀ (env : R1Env) (db : Db) (tid : String) (lf : Nat),
        archiveTailOk (handle_round_01 env db tid lf).1 = true)
    ∧
    (∀ (env : R2Env) (db : Db) (tid : String) (lf : Nat),
        (handle_round_02 env db tid lf).1.countP isArchiveEv = 0) := by
  refine ⟨?_, ?_, ?_⟩
  · intro db tid rec h
    obtain ⟨h1, h2⟩ := archive_lookup db tid rec h
    exact ⟨by rw [h1], h2, rfl, rfl, rfl, rfl, rfl, rfl, rfl, rfl, rfl, rfl, rfl, rfl⟩
  · intro env db tid lf
    exact r1Loop_archiveTail env tid lf MAX_REPO_CREATION_ATTEMPTS 0 db
  · intro env db tid lf
    exact r2_no_archive env db tid lf

/-- C9 witness: the round-1 record through the archival theorem. -/
theorem c9_witness :
    get_task sampleDb1 "task-001" = some sampleRec ∧
    get_task (archive_task_round_01 sampleDb1 "task-001").2 "task-001" =
      some (archiveCopy sampleRec) :=
  ⟨rfl, (c9_archival_once.1 sampleDb1 "task-001" sampleRec rfl).2.1⟩

/-- When the very first deadline check fails, the LLM loop breaks at once:
no call is made and the store is untouched. -/
theorem llmRetryLoop_skip (e : LlmLoopEnv) (tid repoPath fname : String)
    (fuel : Nat) (db : Db)
    (ht : e.llmTime + ROUND_BUFFER_TIME_REQUIRED >
      ROUND_TIMEOUT_SECONDS - (e.iterNow 0 - e.createdAt)) :
    llmRetryLoop e tid repoPath fname (fuel + 1) 0 db = some ([], db) := by
  simp only [llmRetryLoop]
  rw [if_pos ht]

/-- A round-1 run whose creation, seeding and Pages steps succeed, whose
first deadline check forces the LLM skip, and whose notification succeeds,
returns the success body with no LLM call in its trace. -/
theorem r1Loop_skip_success (env : R1Env) (tid : String) (k fuel attempt : Nat)
    (db : Db) (info : RepoInfo) (repoPath : String) (sha : Option String)
    (pagesUrl : Option String)
    (hcreate : create_remote_repository env.token (env.createResponses attempt) = .ok info)
    (hsetup : env.setupResult = .ok (repoPath, sha))
    (hpages : env.pagesResult = .ok pagesUrl)
    (ht : env.llm.llmTime + ROUND_BUFFER_TIME_REQUIRED >
      ROUND_TIMEOUT_SECONDS - (env.llm.iterNow 0 - env.llm.createdAt))
    (hnotify : env.notifyOk = true) :
    ∃ evs db2,
      r1AttemptLoop env tid (k + 1) (fuel + 1) attempt db =
        (evs, db2, .ok ("Repository " ++ (tid ++ "-" ++ env.suffixes attempt) ++
          " created successfully.")) ∧
      evs.countP isLlmEv = 0 := by
  simp only [r1AttemptLoop, hcreate, hsetup, hpages, llmRetryLoop_skip _ _ _ _ _ _ ht]
  rw [if_pos hnotify]
  refine ⟨_, _, rfl, ?_⟩
  split <;> simp [List.countP_cons, List.countP_append, isLlmEv]

/-! ### Claim C6 -/

/-- C6: when the task's creation time lies far enough in the past that
the remaining budget is below the estimated LLM time plus the safety
buffer, the round procedure makes no LLM call at all and still completes
successfully (given that the round's other collaborators succeed): the
deadline skip is a graceful degradation, not a failure. Stated for both
the round-1 and the round-2 procedure. -/
theorem c6_deadline_skip :
    (∀ (env : R1Env) (db : Db) (tid : String) (k : Nat) (info : RepoInfo)
        (repoPath : String) (sha : Option String) (pagesUrl : Option String),
        create_remote_repository env.token (env.createResponses 0) = .ok info →
        env.setupResult = .ok (repoPath, sha) →
        env.pagesResult = .ok pagesUrl →
        env.llm.llmTime + ROUND_BUFFER_TIME_REQUIRED >
          ROUND_TIMEOUT_SECONDS - (env.llm.iterNow 0 - env.llm.createdAt) →
        env.notifyOk = true →
        ∃ evs db2,
          handle_round_01 env db tid (k + 1) =
            (evs, db2, .ok ("Repository " ++ (tid ++ "-" ++ env.suffixes 0) ++
              " created successfully.")) ∧
          evs.countP isLlmEv = 0)
    ∧
    (∀ (env : R2Env) (db : Db) (tid : String) (k : Nat) (payload : TaskRecord),
        get_task db tid = some payload →
        payload.attachments = some "[]" →
        env.llm.llmTime + ROUND_BUFFER_TIME_REQUIRED >
          ROUND_TIMEOUT_SECONDS - (env.llm.iterNow 0 - env.llm.createdAt) →
        env.notifyOk = true →
        ∃ evs db2,
          handle_round_02 env db tid (k + 1) =
            (evs, db2, .ok ("Repository " ++ payload.repo_name.getD "" ++
              " updated successfully.")) ∧
          evs.countP isLlmEv = 0) := by
  constructor
  · intro env db tid k info repoPath sha pagesUrl hcreate hsetup hpages ht hnotify
    unfold handle_round_01
    rw [show MAX_REPO_CREATION_ATTEMPTS = 29 + 1 from rfl]
    exact r1Loop_skip_success env tid k 29 0 db info repoPath sha pagesUrl
      hcreate hsetup hpages ht hnotify
  · intro env db tid k payload hget hatt ht hnotify
    simp only [handle_round_02, hget, hatt,
      show jsonArrayEmpty "[]" = some true from rfl, if_true]
    unfold r2Main
    simp only [llmRetryLoop_skip _ _ _ _ _ _ ht]
    rw [if_pos hnotify]
    refine ⟨_, _, rfl, ?_⟩
    split <;> simp [List.countP_cons, List.countP_append, isLlmEv]

/-- C6 witness: a concrete expired-deadline run of both rounds. -/
theorem c6_witness :
    (create_remote_repository sampleSkipR1Env.token (sampleSkipR1Env.createResponses 0) =
      .ok ⟨"https://github.com/octo/task-001-abc", "octo"⟩) ∧
    (sampleSkipR1Env.llm.llmTime + ROUND_BUFFER_TIME_REQUIRED >
      ROUND_TIMEOUT_SECONDS - (sampleSkipR1Env.llm.iterNow 0 - sampleSkipR1Env.llm.createdAt)) ∧
    (∃ evs db2,
      handle_round_01 sampleSkipR1Env sampleDb1 "task-001" (0 + 1) =
        (evs, db2, .ok ("Repository " ++ ("task-001" ++ "-" ++ sampleSkipR1Env.suffixes 0) ++
          " created successfully.")) ∧
      evs.countP isLlmEv = 0) ∧
    (∃ evs db2,
      handle_round_02 sampleR2Env sampleDb2 "task-001" (0 + 1) =
        (evs, db2, .ok ("Repository " ++ sampleRec2.repo_name.getD "" ++
          " updated successfully.")) ∧
      evs.countP isLlmEv = 0) :=
  ⟨rfl, by decide,
   c6_deadline_skip.1 sampleSkipR1Env sampleDb1 "task-001" 0
     ⟨"https://github.com/octo/task-001-abc", "octo"⟩ "/repos/task-001-a"
     (some "1111111") (some "https://octo.github.io/task-001-a/")
     rfl rfl rfl (by decide) rfl,
   c6_deadline_skip.2 sampleR2Env sampleDb2 "task-001" 0 sampleRec2
     rfl rfl (by decide) rfl⟩

/-- Decoding a six-bit character recovers its index. -/
theorem sixBitChar_inv : ∀ n, n < 64 → charSixBit (sixBitChar n) = some n := by decide

/-- Alphabet characters are never the padding character. -/
theorem sixBitChar_ne_pad : ∀ n, n < 64 → ¬ sixBitChar n = '=' := by decide

/-- Alphabet characters survive the decoder's pre-filter. -/
theorem sixBitChar_valid : ∀ n, n < 64 → b64ValidChar (sixBitChar n) = true := by decide

/-- Alphabet characters are not whitespace. -/
theorem sixBitChar_not_space : ∀ n, n < 64 → isPySpace (sixBitChar n) = false := by decide

/-- Every character an encoding produces is kept by the decoder's filter
and is not whitespace. -/
theorem b64Encode_chars : ∀ (l : List Nat), (∀ b ∈ l, b < 256) →
    ∀ c ∈ b64Encode l, b64ValidChar c = true ∧ isPySpace c = false
  | [], _, c, hc => by simp [b64Encode] at hc
  | [b1], h, c, hc => by
      have hb1 : b1 < 256 := h b1 (by simp)
      simp only [b64Encode, List.mem_cons, List.not_mem_nil, or_false] at hc
      rcases hc with rfl | rfl | rfl | rfl
      · exact ⟨sixBitChar_valid _ (by omega), sixBitChar_not_space _ (by omega)⟩
      · exact ⟨sixBitChar_valid _ (by omega), sixBitChar_not_space _ (by omega)⟩
      · exact ⟨by decide, by decide⟩
      · exact ⟨by decide, by decide⟩
  | [b1, b2], h, c, hc => by
      have hb1 : b1 < 256 := h b1 (by simp)
      have hb2 : b2 < 256 := h b2 (by simp)
      simp only [b64Encode, List.mem_cons, List.not_mem_nil, or_false] at hc
      rcases hc with rfl | rfl | rfl | rfl
      · exact ⟨sixBitChar_valid _ (by omega), sixBitChar_not_space _ (by omega)⟩
      · exact ⟨sixBitChar_valid _ (by omega), sixBitChar_not_space _ (by omega)⟩
      · exact ⟨sixBitChar_valid _ (by omega), sixBitChar_not_space _ (by omega)⟩
      · exact ⟨by decide, by decide⟩
  | b1 :: b2 :: b3 :: rest, h, c, hc => by
      have hb1 : b1 < 256 := h b1 (by simp)
      have hb2 : b2 < 256 := h b2 (by simp)
      have hb3 : b3 < 256 := h b3 (by simp)
      simp only [b64Encode, List.mem_cons] at hc
      rcases hc with rfl | rfl | rfl | rfl | hc
      · exact ⟨sixBitChar_valid _ (by omega), sixBitChar_not_space _ (by omega)⟩
      · exact ⟨sixBitChar_valid _ (by omega), sixBitChar_not_space _ (by omega)⟩
      · exact ⟨sixBitChar_valid _ (by omega), sixBitChar_not_space _ (by omega)⟩
      · exact ⟨sixBitChar_valid _ (by omega), sixBitChar_not_space _ (by omega)⟩
      · exact b64Encode_chars rest (fun b hb => h b (by simp [hb])) c hc

/-- Decoding inverts encoding on byte lists. -/
theorem b64_roundtrip : ∀ (l : List Nat), (∀ b ∈ l, b < 256) →
    b64DecodeGroups (b64Encode l) = some l
  | [], _ => rfl
  | [b1], h => by
      have hb1 : b1 < 256 := h b1 (by simp)
      have e0 := sixBitChar_inv (b1 / 4) (by omega)
      have e1 := sixBitChar_inv (b1 % 4 * 16) (by omega)
      simp [b64Encode, b64DecodeGroups, e0, e1]
      omega
  | [b1, b2], h => by
      have hb1 : b1 < 256 := h b1 (by simp)
      have hb2 : b2 < 256 := h b2 (by simp)
      have e0 := sixBitChar_inv (b1 / 4) (by omega)
      have e1 := sixBitChar_inv (b1 % 4 * 16 + b2 / 16) (by omega)
      have e2 := sixBitChar_inv (b2 % 16 * 4) (by omega)
      have p2 := sixBitChar_ne_pad (b2 % 16 * 4) (by omega)
      simp [b64Encode, b64DecodeGroups, e0, e1, e2, p2]
      omega
  | b1 :: b2 :: b3 :: rest, h => by
      have hb1 : b1 < 256 := h b1 (by simp)
      have hb2 : b2 < 256 := h b2 (by simp)
      have hb3 : b3 < 256 := h b3 (by simp)
      have e0 := sixBitChar_inv (b1 / 4) (by omega)
      have e1 := sixBitChar_inv (b1 % 4 * 16 + b2 / 16) (by omega)
      have e2 := sixBitChar_inv (b2 % 16 * 4 + b3 / 64) (by omega)
      have e3 := sixBitChar_inv (b3 % 64) (by omega)
      have p2 := sixBitChar_ne_pad (b2 % 16 * 4 + b3 / 64) (by omega)
      have p3 := sixBitChar_ne_pad (b3 % 64) (by omega)
      have ih := b64_roundtrip rest (fun b hb => h b (by simp [hb]))
      simp [b64Encode, b64DecodeGroups, e0, e1, e2, e3, p2, p3, ih]
      omega

/-- `b64decode` inverts `b64Encode` through the string boundary. -/
theorem b64decode_encode (l : List Nat) (h : ∀ b ∈ l, b < 256) :
    b64decode (String.mk (b64Encode l)) = some l := by
  unfold b64decode
  rw [show (String.mk (b64Encode l)).toList = b64Encode l from rfl,
      List.filter_eq_self.mpr (fun c hc => (b64Encode_chars l h c hc).1)]
  exact b64_roundtrip l h

/-- `dropWhile` is the identity when no element satisfies the predicate. -/
theorem dropWhile_all_false {α : Type} (p : α → Bool) :
    ∀ (l : List α), (∀ x ∈ l, p x = false) → l.dropWhile p = l
  | [], _ => rfl
  | a :: t, h => by
      rw [List.dropWhile_cons, h a (by simp)]
      simp

/-- `pyStrip` is the identity on whitespace-free strings. -/
theorem pyStrip_no_space (s : String) (h : ∀ c ∈ s.toList, isPySpace c = false) :
    pyStrip s = s := by
  unfold pyStrip
  rw [dropWhile_all_false isPySpace s.toList h,
      dropWhile_all_false isPySpace s.toList.reverse
        (fun c hc => h c (List.mem_reverse.mp hc)),
      List.reverse_reverse]
  cases s
  rfl

/-- An encoded payload carries no whitespace, so parsing leaves it as is. -/
theorem pyStrip_b64 (l : List Nat) (h : ∀ b ∈ l, b < 256) :
    pyStrip (String.mk (b64Encode l)) = String.mk (b64Encode l) :=
  pyStrip_no_space _ (fun c hc => (b64Encode_chars l h c hc).2)

/-- The materializer's write list never gains a reserved filename. -/
theorem materialize_writes_safe :
    ∀ (entries : List FileEntry) (excl : List String) (st st2 : MatState),
      materializeEntries entries excl st = some st2 →
      (∀ w ∈ st.writes, pathName w.1 ≠ "LICENSE" ∧ pathName w.1 ≠ "commit_message") →
      ∀ w ∈ st2.writes, pathName w.1 ≠ "LICENSE" ∧ pathName w.1 ≠ "commit_message" := by
  intro entries
  induction entries with
  | nil =>
      intro excl st st2 h hw
      simp only [materializeEntries, Option.some.injEq] at h
      subst h
      exact hw
  | cons e rest ih =>
      intro excl st st2 h hw
      simp only [materializeEntries] at h
      split at h
      · exact ih excl st st2 h hw
      · split at h
        · exact ih excl _ st2 h (by simpa using hw)
        · split at h
          · exact ih excl st st2 h hw
          · split at h
            · simp at h
            · apply ih excl _ st2 h
              intro w hwmem
              simp only [List.mem_append, List.mem_singleton] at hwmem
              rcases hwmem with hwm | rfl
              · exact hw w hwm
              · exact ⟨by assumption, by assumption⟩

/-! ### Claim C5 -/

/-- C5 counterexample: a container whose plain-text file's inline content
carries a trailing newline is not written byte-exactly: `files_parse`
strips the element's inner text, so the written bytes lack the newline
while the declared content has it. -/
theorem c5_counterexample :
    create_files_from_response [⟨"index.html", "<h1>hi</h1>\n", none⟩] [] =
      some ⟨[("index.html", utf8Bytes "<h1>hi</h1>")], none, ["index.html"]⟩ ∧
    utf8Bytes "<h1>hi</h1>" ≠ utf8Bytes "<h1>hi</h1>\n" :=
  ⟨by decide, by decide⟩

/-- C5 (amended): (i) a file named as the license marker or the
commit-message marker is never among the materializer's disk writes, for
any container; and (ii) for every container holding one base64-encoded
file, one plain-text file, a LICENSE pseudo-file and a commit_message
pseudo-file, materialization writes exactly the two real files: the
base64 payload is recovered byte-exactly, while the plain-text file is
written as the UTF-8 bytes of its inline content with leading and
trailing whitespace stripped (the parser strips each element's inner
text, so plain-text content is byte-exact only up to that strip); the
commit message is stored, stripped, into the task record's
commit-message field without being written to disk; the LICENSE entry is
discarded; and the returned list holds the two written relative paths in
creation order. -/
theorem c5_materializer_roundtrip :
    (∀ (raws : List RawFileEntry) (excl : List String) (st2 : MatState),
        create_files_from_response raws excl = some st2 →
        ∀ w ∈ st2.writes, pathName w.1 ≠ "LICENSE" ∧ pathName w.1 ≠ "commit_message")
    ∧
    (∀ (payload : List Nat) (p1 p2 lic m c2 : String),
        (∀ b ∈ payload, b < 256) →
        pathName p1 ≠ "LICENSE" → pathName p1 ≠ "commit_message" →
        pathName p2 ≠ "LICENSE" → pathName p2 ≠ "commit_message" →
        create_files_from_response
          [⟨p1, String.mk (b64Encode payload), some "base64"⟩,
           ⟨p2, c2, none⟩,
           ⟨"LICENSE", lic, none⟩,
           ⟨"commit_message", m, none⟩] [] =
          some ⟨[(p1, payload), (p2, utf8Bytes (pyStrip c2))],
                some (pyStrip m), [p1, p2]⟩) := by
  constructor
  · intro raws excl st2 h
    exact materialize_writes_safe (files_parse raws) excl ⟨[], none, []⟩ st2 h
      (by intro w hw; simp at hw)
  · intro payload p1 p2 lic m c2 hbytes h1 h2 h3 h4
    simp only [create_files_from_response, files_parse, List.map_cons, List.map_nil]
    rw [show pyStrip (String.mk (b64Encode payload)) = String.mk (b64Encode payload)
          from pyStrip_b64 payload hbytes]
    simp [materializeEntries, h1, h2, h3, h4, b64decode_encode payload hbytes,
      show pathName "LICENSE" = "LICENSE" from rfl,
      show ¬ pathName "commit_message" = "LICENSE" from by decide,
      show pathName "commit_message" = "commit_message" from rfl]

/-- C5 witness: a two-byte payload and a newline-terminated HTML file
through the amended round-trip theorem. -/
theorem c5_witness :
    (∀ b ∈ [104, 105], b < 256) ∧
    pathName "img.bin" ≠ "LICENSE" ∧
    create_files_from_response
      [⟨"img.bin", String.mk (b64Encode [104, 105]), some "base64"⟩,
       ⟨"index.html", "<h1>hi</h1>\n", none⟩,
       ⟨"LICENSE", "MIT License", none⟩,
       ⟨"commit_message", " add site \n", none⟩] [] =
      some ⟨[("img.bin", [104, 105]),
             ("index.html", utf8Bytes (pyStrip "<h1>hi</h1>\n"))],
            some (pyStrip " add site \n"), ["img.bin", "index.html"]⟩ :=
  ⟨by decide, by decide,
   c5_materializer_roundtrip.2 [104, 105] "img.bin" "index.html" "MIT License"
     " add site \n" "<h1>hi</h1>\n" (by decide) (by decide) (by decide) (by decide)
     (by decide)⟩

/-! ### Claim C7 -/

/-- C7 counterexample: at a record whose commit-hash field holds the last
pushed hash "abc1234", a no-staged-changes commit-and-push returns no
error and no hash — but the handler then upserts that `None` into the
record, so its commit-hash field becomes absent instead of continuing to
reflect "abc1234": the claim's last conjunct fails on the code. -/
theorem c7_counterexample :
    git_commit_and_push (some "tok") ⟨false, "deadbeefcafe"⟩ = .ok none ∧
    (get_task sampleDbSha "task-001").map TaskRecord.commit_hash =
      some (some "abc1234") ∧
    (get_task (applyLlmSuccess sampleDbSha "task-001" "/repos/task-001-a"
        ".llm_output_round_1.txt" ["index.html"] none none) "task-001").map
      TaskRecord.commit_hash = some none ∧
    (some (none : Option String) : Option (Option String)) ≠ some (some "abc1234") :=
  ⟨rfl, rfl, rfl, by decide⟩

/-- C7 (amended): when commit-and-push finds no staged changes after
staging, it raises no error and returns no commit hash (Python `None`);
the handler then writes exactly that null into the task record, so the
record's commit-hash field is cleared rather than continuing to reflect
the last pushed commit. -/
theorem c7_push_noop_clears_hash :
    (∀ (t : String) (st : GitPushState), st.stagedAfterAdd = false →
        git_commit_and_push (some t) st = .ok none)
    ∧
    (∀ (db : Db) (tid repoPath fname : String) (files : List String)
        (msg : Option String) (rec : TaskRecord),
        get_task db tid = some rec →
        ∃ rec2, get_task (applyLlmSuccess db tid repoPath fname files msg none) tid =
            some rec2 ∧ rec2.commit_hash = none) := by
  constructor
  · intro t st h
    simp [git_commit_and_push, h]
  · intro db tid repoPath fname files msg rec h
    unfold applyLlmSuccess
    have h1 := get_task_upsertWith db tid
      (fun r => { r with llm_output_path := some (repoPath ++ "/" ++ fname) }) rec h
    cases msg with
    | none =>
        have h2 := get_task_upsertWith _ tid
          (fun r => { r with created_files := some (jsonDumpStrList files) }) _ h1
        have h3 := get_task_upsertWith _ tid
          (fun r => { r with commit_hash := (none : Option String) }) _ h2
        exact ⟨_, h3, rfl⟩
    | some m =>
        have h15 := get_task_upsertWith _ tid
          (fun r => { r with commit_message := some m }) _ h1
        have h2 := get_task_upsertWith _ tid
          (fun r => { r with created_files := some (jsonDumpStrList files) }) _ h15
        have h3 := get_task_upsertWith _ tid
          (fun r => { r with commit_hash := (none : Option String) }) _ h2
        exact ⟨_, h3, rfl⟩

/-- C7 witness: the no-op push and the record update at concrete inputs. -/
theorem c7_witness :
    ((⟨false, "deadbeefcafe"⟩ : GitPushState).stagedAfterAdd = false) ∧
    git_commit_and_push (some "tok") ⟨false, "deadbeefcafe"⟩ = .ok none ∧
    (∃ rec2, get_task (applyLlmSuccess sampleDbSha "task-001" "/repos/task-001-a"
        ".llm_output_round_1.txt" ["index.html"] none none) "task-001" =
          some rec2 ∧ rec2.commit_hash = none) :=
  ⟨rfl, c7_push_noop_clears_hash.1 "tok" ⟨false, "deadbeefcafe"⟩ rfl,
   c7_push_noop_clears_hash.2 sampleDbSha "task-001" "/repos/task-001-a"
     ".llm_output_round_1.txt" ["index.html"] none _ rfl⟩

/-- C10 witness: a record stored with round 7. -/
theorem c10_witness :
    get_task sampleDb7 "task-001" = some { sampleRec with round := some 7 } ∧
    ((7 : Int) ≠ 1) ∧ ((7 : Int) ≠ 2) ∧
    handle_llm_task sampleR1Env sampleR2Env sampleDb7 "task-001" 1 =
      ([], sampleDb7, .httpError 400 ("Unsupported round index: " ++ toString (7 : Int))) :=
  ⟨rfl, by decide, by decide,
   c10_unsupported_round sampleR1Env sampleR2Env sampleDb7 "task-001" 1
     { sampleRec with round := some 7 } 7 rfl rfl (by decide) (by decide)⟩

end IitmApp
